import Mathlib

/-!
Verification of the board-image compositing module of the slack-poker-bot
repository (`src/image-helpers.js`).

The JavaScript code is embedded shallowly:

* an lwip in-memory bitmap becomes the `Image` structure (width, height and a
  row-major list of abstract pixel values);
* the filesystem becomes `FS`, an association list from path strings to
  images, together with a set of paths on which a write reports an error
  (modelling the `err` argument of the `writeFile` callback);
* each promise chain becomes explicit sequencing in `Except`, threading the
  filesystem state: a rejected promise is an `Except.error`, a resolved one an
  `Except.ok`, and every operation produces exactly one of the two;
* `lwip.open` fails on a missing file (`imageOpenError`), `image.paste` fails
  when the pasted image does not fit inside the destination (`pasteError`,
  matching lwip's out-of-bounds check), and `image.writeFile` fails exactly on
  the paths in `FS.badWrites` (`writeError`).

The directory-creation step (`fs.mkdirSync('./output')`) is an effect on
directories only; directories are not part of the `FS` model, so it is a
no-op here, as it is idempotent and error-free in the source.
-/

namespace PokerBoard

/-- Abstract pixel value; the codec is opaque, so a pixel is just a tag. -/
abbrev Pixel := Nat

/-- The background fill colour passed to `lwip.create` as `'white'`. -/
def white : Pixel := 16777215

/-- An in-memory decoded bitmap: `pixels` is a list of `height` rows, each of
`width` pixel values. -/
structure Image where
  width : Nat
  height : Nat
  pixels : List (List Pixel)
deriving Repr, DecidableEq

/-- A bitmap is wellformed when its pixel grid has exactly `height` rows of
exactly `width` pixels each. -/
def Image.wf (img : Image) : Prop :=
  img.pixels.length = img.height ∧ ∀ row ∈ img.pixels, row.length = img.width

instance (img : Image) : Decidable img.wf :=
  inferInstanceAs (Decidable
    (img.pixels.length = img.height ∧ ∀ row ∈ img.pixels, row.length = img.width))

/-- The failure modes of the compositing pipeline: a failed `lwip.open`
(carrying the missing path), a failed `paste`, a failed `writeFile`. -/
inductive ImgError where
  | imageOpenError : String → ImgError
  | pasteError : ImgError
  | writeError : ImgError
deriving Repr, DecidableEq

instance {ε α : Type} [DecidableEq ε] [DecidableEq α] : DecidableEq (Except ε α) := fun a b =>
  match a, b with
  | .ok x, .ok y =>
      if h : x = y then .isTrue (by rw [h]) else .isFalse (by simp [h])
  | .ok _, .error _ => .isFalse (by simp)
  | .error _, .ok _ => .isFalse (by simp)
  | .error x, .error y =>
      if h : x = y then .isTrue (by rw [h]) else .isFalse (by simp [h])

/-- The filesystem: an association list from paths to the images stored at
them, plus the set of paths on which a write reports an error. -/
structure FS where
  files : List (String × Image)
  badWrites : List String
deriving Repr, DecidableEq

/-- The image stored at path `p`, if any. -/
def FS.lookup (fs : FS) (p : String) : Option Image :=
  (fs.files.find? (fun e => e.1 == p)).map (·.2)

/-- Overwrite (or create) the file at path `p`. -/
def FS.write (fs : FS) (p : String) (img : Image) : FS :=
  { fs with files := (p, img) :: fs.files.filter (fun e => e.1 != p) }

/-- `lwip.open`, promisified: resolves with the decoded image, rejects with an
open error when the path has no file. -/
def openImage (fs : FS) (p : String) : Except ImgError Image :=
  match fs.lookup p with
  | some img => .ok img
  | none => .error (.imageOpenError p)

/-- `lwip.create w h color`: a fresh canvas filled with the given colour. -/
def createImage (w h : Nat) (color : Pixel) : Image :=
  ⟨w, h, List.replicate h (List.replicate w color)⟩

/-- One row of a paste: overwrite the slots `[x, x + srcRow.length)` of the
destination row with the source row. -/
def pasteRow (x : Nat) (srcRow destRow : List Pixel) : List Pixel :=
  destRow.take x ++ srcRow ++ destRow.drop (x + srcRow.length)

/-- Paste a source pixel grid onto a destination grid with its top-left corner
at column `x`, row `y`. -/
def pastePixels (x y : Nat) (src dest : List (List Pixel)) : List (List Pixel) :=
  dest.take y ++ List.zipWith (pasteRow x) src (dest.drop y)
    ++ dest.drop (y + src.length)

/-- `dest.paste(x, y, src, cb)`, promisified: lwip rejects when the pasted
image exceeds the destination borders, otherwise resolves with the mutated
destination image. -/
def paste (x y : Nat) (src dest : Image) : Except ImgError Image :=
  if x + src.width ≤ dest.width ∧ y + src.height ≤ dest.height then
    .ok ⟨dest.width, dest.height, pastePixels x y src.pixels dest.pixels⟩
  else
    .error .pasteError

/-- `img.writeFile(outputFile, cb)`, promisified: rejects with a write error on
the bad paths, otherwise persists the image and resolves with `outputFile`. -/
def writeFile (fs : FS) (img : Image) (outputFile : String) :
    FS × Except ImgError String :=
  if outputFile ∈ fs.badWrites then (fs, .error .writeError)
  else (fs.write outputFile img, .ok outputFile)

/-- `ImageHelpers.combineTwo(imageFiles, outputFile)`: open both source images
in order, allocate a white canvas of width the sum of the two widths and
height the first image's height, paste image 0 at (0,0), paste image 1 at
(width of image 0, 0), and write the canvas to `outputFile`. -/
def combineTwo (fs : FS) (imageFiles : List String) (outputFile : String) :
    FS × Except ImgError String :=
  match openImage fs (imageFiles.getD 0 ("")) with
  | .error e => (fs, .error e)
  | .ok firstImage =>
    match openImage fs (imageFiles.getD 1 ("")) with
    | .error e => (fs, .error e)
    | .ok secondImage =>
      let destImage :=
        createImage (firstImage.width + secondImage.width) firstImage.height white
      match paste 0 0 firstImage destImage with
      | .error e => (fs, .error e)
      | .ok d1 =>
        match paste firstImage.width 0 secondImage d1 with
        | .error e => (fs, .error e)
        | .ok d2 => writeFile fs d2 outputFile

/-- `ImageHelpers.combineThree(imageFiles, outputFile)`: combine the first two
files into `outputFile`, then combine `[outputFile, imageFiles[2]]` into
`outputFile` again. -/
def combineThree (fs : FS) (imageFiles : List String) (outputFile : String) :
    FS × Except ImgError String :=
  match combineTwo fs (imageFiles.take 2) outputFile with
  | (fs1, .error e) => (fs1, .error e)
  | (fs1, .ok _) => combineTwo fs1 [outputFile, imageFiles.getD 2 ("")] outputFile

/-- The asset path for a card identifier: the template literal
`resources/${c}.jpeg`. -/
def resourcePath (c : String) : String :=
  "resources/" ++ c ++ ".jpeg"

/-- The fixed flop output path `./output/flop.jpeg`. -/
def flopPath : String := "./output/flop.jpeg"

/-- The fixed turn output path `./output/turn.jpeg`. -/
def turnPath : String := "./output/turn.jpeg"

/-- The fixed river output path `./output/river.jpeg`. -/
def riverPath : String := "./output/river.jpeg"

/-- `ImageHelpers.createBoardImage(cards)`: map each card to its asset path and
switch on `cards.length`; a length outside {3,4,5} matches no case, so the
function returns `undefined` (here `none`) and performs no filesystem work. -/
def createBoardImage (fs : FS) (cards : List String) :
    FS × Option (Except ImgError String) :=
  let imageFiles := cards.map resourcePath
  if cards.length = 3 then
    let r := combineThree fs imageFiles flopPath
    (r.1, some r.2)
  else if cards.length = 4 then
    let r := combineTwo fs [flopPath, imageFiles.getD 3 ("")] turnPath
    (r.1, some r.2)
  else if cards.length = 5 then
    let r := combineThree fs [flopPath, imageFiles.getD 3 (""), imageFiles.getD 4 ("")] riverPath
    (r.1, some r.2)
  else
    (fs, none)

/-- Horizontal concatenation of two equal-height images: each row of the
result is the corresponding row of `a` followed by that of `b`. -/
def hconcat (a b : Image) : Image :=
  ⟨a.width + b.width, a.height, List.zipWith (· ++ ·) a.pixels b.pixels⟩

/-- Direct three-wide row concatenation, the reference the spec compares
`combineThree` against. -/
def threeWidePixels : List (List Pixel) → List (List Pixel) → List (List Pixel) → List (List Pixel)
  | a :: as, b :: bs, c :: cs => (a ++ b ++ c) :: threeWidePixels as bs cs
  | _, _, _ => []

/-- Direct three-wide left-to-right concatenation of three equal-height
images. -/
def threeWide (a b c : Image) : Image :=
  ⟨a.width + b.width + c.width, a.height, threeWidePixels a.pixels b.pixels c.pixels⟩

/-- The spec's description of `combineThree`, followed word for word:
`combineTwo(files[0..2], outputPath)` followed by
`combineTwo([outputPath, files[2]], outputPath)`. -/
def combineThreeSpec (fs : FS) (imageFiles : List String) (outputFile : String) :
    FS × Except ImgError String :=
  let s := combineTwo fs (imageFiles.take 2) outputFile
  match s.2 with
  | .error e => (s.1, .error e)
  | .ok _ => combineTwo s.1 [outputFile, imageFiles.getD 2 ("")] outputFile

/-! ### Concrete fixtures used by witnesses and counterexamples -/

def cardA : String := "a"

def cardB : String := "b"

def cardC : String := "c"

def cardD : String := "d"

def cardE : String := "e"

def imgA : Image := ⟨2, 1, [[5, 6]]⟩

def imgB : Image := ⟨1, 1, [[7]]⟩

def imgC : Image := ⟨1, 1, [[8]]⟩

def imgD : Image := ⟨1, 1, [[3]]⟩

def imgE : Image := ⟨1, 1, [[4]]⟩

def imgFlop : Image := ⟨1, 1, [[1]]⟩

def imgTurn : Image := ⟨1, 1, [[2]]⟩

def emptyFS : FS := ⟨[], []⟩

/-- A filesystem holding all five card assets plus previously composed flop
and turn artifacts (the flop and turn artifacts deliberately hold different
pixel data). -/
def fsFull : FS :=
  ⟨[(resourcePath cardA, imgA), (resourcePath cardB, imgB), (resourcePath cardC, imgC),
    (resourcePath cardD, imgD), (resourcePath cardE, imgE),
    (flopPath, imgFlop), (turnPath, imgTurn)], []⟩

/-- A filesystem holding assets for cards `a` and `b` but not for card `c`. -/
def fsNoC : FS :=
  ⟨[(resourcePath cardA, imgA), (resourcePath cardB, imgB)], []⟩

/-! ### Filesystem lemmas -/

theorem FS.lookup_write_self (fs : FS) (p : String) (img : Image) :
    (fs.write p img).lookup p = some img := by
  simp [FS.write, FS.lookup, List.find?]

theorem FS.lookup_write_ne (fs : FS) (p q : String) (img : Image) (h : q ≠ p) :
    (fs.write p img).lookup q = fs.lookup q := by
  have hpq : (p == q) = false := beq_eq_false_iff_ne.mpr (Ne.symm h)
  have hpred : (fun (e : String × Image) => e.1 != p && e.1 == q) = fun e => e.1 == q := by
    funext e
    by_cases he : e.1 = q
    · simp [he, h]
    · simp [he]
  simp only [FS.write, FS.lookup, List.find?, hpq, List.find?_filter, Bool.decide_and,
    Bool.decide_coe]
  rw [show (fun (e : String × Image) => e.1 != p && e.1 == q) = fun e => e.1 == q from hpred]

theorem FS.write_badWrites (fs : FS) (p : String) (img : Image) :
    (fs.write p img).badWrites = fs.badWrites := rfl

theorem FS.write_write (fs : FS) (p : String) (a b : Image) :
    (fs.write p a).write p b = fs.write p b := by
  simp [FS.write, List.filter_filter]

/-! ### Path disjointness: every card asset path starts with the character
`r`, every output path with `.`; hence no asset path collides with an output
path. -/

theorem resourcePath_ne_flopPath (c : String) : resourcePath c ≠ flopPath := by
  intro h
  have h2 : (resourcePath c).data.head? = flopPath.data.head? := by rw [h]
  rw [show (resourcePath c).data.head? = some 'r' from rfl] at h2
  simp [flopPath] at h2

theorem resourcePath_ne_turnPath (c : String) : resourcePath c ≠ turnPath := by
  intro h
  have h2 : (resourcePath c).data.head? = turnPath.data.head? := by rw [h]
  rw [show (resourcePath c).data.head? = some 'r' from rfl] at h2
  simp [turnPath] at h2

theorem resourcePath_ne_riverPath (c : String) : resourcePath c ≠ riverPath := by
  intro h
  have h2 : (resourcePath c).data.head? = riverPath.data.head? := by rw [h]
  rw [show (resourcePath c).data.head? = some 'r' from rfl] at h2
  simp [riverPath] at h2

/-! ### Pixel-level lemmas: pasting two images side by side onto a fresh
white canvas is row-wise concatenation. -/

theorem pastePixels_zero (x : Nat) (src dest : List (List Pixel)) :
    pastePixels x 0 src dest =
      List.zipWith (pasteRow x) src dest ++ dest.drop src.length := by
  simp [pastePixels]

theorem pasteRow_zero (s d : List Pixel) :
    pasteRow 0 s d = s ++ d.drop s.length := by
  simp [pasteRow]

/-- Pasting each row of the first image at column 0 of a white canvas leaves
that row followed by white padding. -/
theorem grid_first (w0 w1 : Nat) :
    ∀ rows : List (List Pixel), (∀ r ∈ rows, r.length = w0) →
      List.zipWith (pasteRow 0) rows
          (List.replicate rows.length (List.replicate (w0 + w1) white)) =
        rows.map (fun r => r ++ List.replicate w1 white) := by
  intro rows
  induction rows with
  | nil => simp
  | cons r rest ih =>
    intro hlen
    have hr : r.length = w0 := hlen r (by simp)
    simp only [List.length_cons, List.replicate_succ, List.zipWith_cons_cons, List.map_cons]
    rw [ih (fun q hq => hlen q (by simp [hq]))]
    rw [pasteRow_zero, hr, List.drop_replicate, Nat.add_sub_cancel_left]

/-- Pasting each row of the second image at column `w0` over the padded rows
of the first yields the row-wise concatenation of the two images. -/
theorem grid_second (w0 w1 : Nat) :
    ∀ p0 p1 : List (List Pixel), (∀ r ∈ p0, r.length = w0) →
      (∀ r ∈ p1, r.length = w1) → p0.length = p1.length →
      List.zipWith (pasteRow w0) p1 (p0.map (fun r => r ++ List.replicate w1 white)) =
        List.zipWith (· ++ ·) p0 p1 := by
  intro p0
  induction p0 with
  | nil => intro p1 _ _ h; simp
  | cons r0 rest0 ih =>
    intro p1 h0 h1 hlen
    cases p1 with
    | nil => simp at hlen
    | cons r1 rest1 =>
      have hr0 : r0.length = w0 := h0 r0 (by simp)
      have hr1 : r1.length = w1 := h1 r1 (by simp)
      simp only [List.map_cons, List.zipWith_cons_cons]
      rw [ih rest1 (fun q hq => h0 q (by simp [hq])) (fun q hq => h1 q (by simp [hq]))
        (by simpa using hlen)]
      congr 1
      unfold pasteRow
      rw [List.take_left' hr0, hr1]
      rw [List.drop_eq_nil_of_le (by simp [hr0])]
      simp

/-! ### Characterization of `combineTwo` on a successful run -/

/-- When both source files exist, are wellformed, have equal heights, and the
output path is writable, `combineTwo` writes exactly the horizontal
concatenation of the two images to the output path and resolves with that
path. -/
theorem combineTwo_spec (fs : FS) (f0 f1 out : String) (i0 i1 : Image)
    (h0 : fs.lookup f0 = some i0) (h1 : fs.lookup f1 = some i1)
    (hw0 : i0.wf) (hw1 : i1.wf) (hh : i1.height = i0.height)
    (hbad : out ∉ fs.badWrites) :
    combineTwo fs [f0, f1] out = (fs.write out (hconcat i0 i1), .ok out) := by
  have e0 : openImage fs f0 = .ok i0 := by simp [openImage, h0]
  have e1 : openImage fs f1 = .ok i1 := by simp [openImage, h1]
  have hp1 : paste 0 0 i0 (createImage (i0.width + i1.width) i0.height white) =
      .ok ⟨i0.width + i1.width, i0.height,
        pastePixels 0 0 i0.pixels
          (List.replicate i0.height (List.replicate (i0.width + i1.width) white))⟩ := by
    simp only [paste, createImage]
    rw [if_pos (by constructor <;> omega)]
  have hp2 : paste i0.width 0 i1
      (⟨i0.width + i1.width, i0.height,
        i0.pixels.map (fun r => r ++ List.replicate i1.width white)⟩ : Image) =
      .ok ⟨i0.width + i1.width, i0.height,
        pastePixels i0.width 0 i1.pixels
          (i0.pixels.map (fun r => r ++ List.replicate i1.width white))⟩ := by
    simp only [paste]
    rw [if_pos (by constructor <;> omega)]
  have hP1 : pastePixels 0 0 i0.pixels
      (List.replicate i0.height (List.replicate (i0.width + i1.width) white)) =
      i0.pixels.map (fun r => r ++ List.replicate i1.width white) := by
    rw [pastePixels_zero, ← hw0.1, grid_first i0.width i1.width i0.pixels hw0.2,
      List.drop_replicate]
    simp
  have hP2 : pastePixels i0.width 0 i1.pixels
      (i0.pixels.map (fun r => r ++ List.replicate i1.width white)) =
      List.zipWith (· ++ ·) i0.pixels i1.pixels := by
    rw [pastePixels_zero]
    rw [grid_second i0.width i1.width i0.pixels i1.pixels hw0.2 hw1.2
      (by rw [hw0.1, hw1.1, hh])]
    rw [List.drop_eq_nil_of_le (by simp [hw0.1, hw1.1, hh])]
    simp
  simp only [combineTwo, List.getD_cons_zero, List.getD_cons_succ, e0, e1, hp1, hp2,
    hP1, hP2, writeFile, hconcat]
  rw [if_neg hbad]

theorem zipWith_append_lengths (w0 w1 : Nat) :
    ∀ p0 p1 : List (List Pixel), (∀ r ∈ p0, r.length = w0) →
      (∀ r ∈ p1, r.length = w1) →
      ∀ r ∈ List.zipWith (· ++ ·) p0 p1, r.length = w0 + w1 := by
  intro p0
  induction p0 with
  | nil => simp
  | cons r0 rest0 ih =>
    intro p1 h0 h1 r hr
    cases p1 with
    | nil => simp at hr
    | cons r1 rest1 =>
      simp only [List.zipWith_cons_cons, List.mem_cons] at hr
      rcases hr with hr | hr
      · rw [hr]
        simp [h0 r0 (by simp), h1 r1 (by simp)]
      · exact ih rest1 (fun q hq => h0 q (by simp [hq])) (fun q hq => h1 q (by simp [hq])) r hr

theorem hconcat_wf (a b : Image) (ha : a.wf) (hb : b.wf) (hh : b.height = a.height) :
    (hconcat a b).wf := by
  constructor
  · simp [hconcat, ha.1, hb.1, hh]
  · intro row hrow
    exact zipWith_append_lengths a.width b.width a.pixels b.pixels ha.2 hb.2 row hrow

theorem hconcat_height (a b : Image) : (hconcat a b).height = a.height := rfl

theorem hconcat_width (a b : Image) : (hconcat a b).width = a.width + b.width := rfl

/-! ### Characterization of `combineThree` on a successful run -/

/-- When the three source files exist, are wellformed, have equal heights, the
third file is distinct from the output path, and the output path is writable,
`combineThree` writes the left-to-right concatenation of the three images to
the output path and resolves with that path. -/
theorem combineThree_spec (fs : FS) (f0 f1 f2 out : String) (i0 i1 i2 : Image)
    (h0 : fs.lookup f0 = some i0) (h1 : fs.lookup f1 = some i1)
    (h2 : fs.lookup f2 = some i2)
    (hw0 : i0.wf) (hw1 : i1.wf) (hw2 : i2.wf)
    (hh1 : i1.height = i0.height) (hh2 : i2.height = i0.height)
    (hf2 : f2 ≠ out) (hbad : out ∉ fs.badWrites) :
    combineThree fs [f0, f1, f2] out =
      (fs.write out (hconcat (hconcat i0 i1) i2), .ok out) := by
  have hstep1 := combineTwo_spec fs f0 f1 out i0 i1 h0 h1 hw0 hw1 hh1 hbad
  have hstep2 := combineTwo_spec (fs.write out (hconcat i0 i1)) out f2 out
      (hconcat i0 i1) i2
      (FS.lookup_write_self fs out (hconcat i0 i1))
      (by rw [FS.lookup_write_ne fs out f2 (hconcat i0 i1) hf2]; exact h2)
      (hconcat_wf i0 i1 hw0 hw1 hh1) hw2
      (show i2.height = (hconcat i0 i1).height from hh2)
      (by rw [FS.write_badWrites]; exact hbad)
  have hred : combineThree fs [f0, f1, f2] out =
      (match combineTwo fs [f0, f1] out with
        | (fs1, .error e) => (fs1, .error e)
        | (fs1, .ok _) => combineTwo fs1 [out, f2] out) := rfl
  rw [hred, hstep1]
  rw [show (match (fs.write out (hconcat i0 i1), Except.ok (ε := ImgError) out) with
        | (fs1, .error e) => (fs1, Except.error e)
        | (fs1, .ok _) => combineTwo fs1 [out, f2] out) =
      combineTwo (fs.write out (hconcat i0 i1)) [out, f2] out from rfl]
  rw [hstep2, FS.write_write]

/-! ### Characterization of `createBoardImage` per card count -/

/-- Three cards: the board image is written to the flop path as the
concatenation of the three card assets. -/
theorem board3_spec (fs : FS) (c0 c1 c2 : String) (i0 i1 i2 : Image)
    (h0 : fs.lookup (resourcePath c0) = some i0)
    (h1 : fs.lookup (resourcePath c1) = some i1)
    (h2 : fs.lookup (resourcePath c2) = some i2)
    (hw0 : i0.wf) (hw1 : i1.wf) (hw2 : i2.wf)
    (hh1 : i1.height = i0.height) (hh2 : i2.height = i0.height)
    (hbad : flopPath ∉ fs.badWrites) :
    createBoardImage fs [c0, c1, c2] =
      (fs.write flopPath (hconcat (hconcat i0 i1) i2), some (.ok flopPath)) := by
  have h3 := combineThree_spec fs (resourcePath c0) (resourcePath c1) (resourcePath c2)
      flopPath i0 i1 i2 h0 h1 h2 hw0 hw1 hw2 hh1 hh2 (resourcePath_ne_flopPath c2) hbad
  have hred : createBoardImage fs [c0, c1, c2] =
      ((combineThree fs [resourcePath c0, resourcePath c1, resourcePath c2] flopPath).1,
        some (combineThree fs [resourcePath c0, resourcePath c1, resourcePath c2] flopPath).2) :=
    rfl
  rw [hred, h3]

/-- Four cards: the board image is written to the turn path as the
concatenation of the stored flop artifact with the fourth card asset; cards
0-2 are never read. -/
theorem board4_spec (fs : FS) (c0 c1 c2 c3 : String) (iF i3 : Image)
    (hF : fs.lookup flopPath = some iF)
    (h3 : fs.lookup (resourcePath c3) = some i3)
    (hwF : iF.wf) (hw3 : i3.wf)
    (hh : i3.height = iF.height)
    (hbad : turnPath ∉ fs.badWrites) :
    createBoardImage fs [c0, c1, c2, c3] =
      (fs.write turnPath (hconcat iF i3), some (.ok turnPath)) := by
  have hc := combineTwo_spec fs flopPath (resourcePath c3) turnPath iF i3
      hF h3 hwF hw3 hh hbad
  have hred : createBoardImage fs [c0, c1, c2, c3] =
      ((combineTwo fs [flopPath, resourcePath c3] turnPath).1,
        some (combineTwo fs [flopPath, resourcePath c3] turnPath).2) := rfl
  rw [hred, hc]

/-- Five cards: the board image is written to the river path as the
concatenation of the stored flop artifact with the fourth and fifth card
assets; cards 0-2 are never read. -/
theorem board5_spec (fs : FS) (c0 c1 c2 c3 c4 : String) (iF i3 i4 : Image)
    (hF : fs.lookup flopPath = some iF)
    (h3 : fs.lookup (resourcePath c3) = some i3)
    (h4 : fs.lookup (resourcePath c4) = some i4)
    (hwF : iF.wf) (hw3 : i3.wf) (hw4 : i4.wf)
    (hh3 : i3.height = iF.height) (hh4 : i4.height = iF.height)
    (hbad : riverPath ∉ fs.badWrites) :
    createBoardImage fs [c0, c1, c2, c3, c4] =
      (fs.write riverPath (hconcat (hconcat iF i3) i4), some (.ok riverPath)) := by
  have hc := combineThree_spec fs flopPath (resourcePath c3) (resourcePath c4)
      riverPath iF i3 i4 hF h3 h4 hwF hw3 hw4 hh3 hh4
      (resourcePath_ne_riverPath c4) hbad
  have hred : createBoardImage fs [c0, c1, c2, c3, c4] =
      ((combineThree fs [flopPath, resourcePath c3, resourcePath c4] riverPath).1,
        some (combineThree fs [flopPath, resourcePath c3, resourcePath c4] riverPath).2) := rfl
  rw [hred, hc]

/-! ### Fail-fast step lemmas: each failing step aborts the chain with its
own error, leaving the filesystem untouched by the remaining steps. -/

theorem combineTwo_err_open0 (fs : FS) (files : List String) (out : String)
    (e : ImgError) (h : openImage fs (files.getD 0 ("")) = .error e) :
    combineTwo fs files out = (fs, .error e) := by
  simp only [combineTwo, h]

theorem combineTwo_err_open1 (fs : FS) (files : List String) (out : String)
    (i0 : Image) (e : ImgError)
    (h0 : openImage fs (files.getD 0 ("")) = .ok i0)
    (h1 : openImage fs (files.getD 1 ("")) = .error e) :
    combineTwo fs files out = (fs, .error e) := by
  simp only [combineTwo, h0, h1]

theorem combineTwo_err_paste (fs : FS) (files : List String) (out : String)
    (i0 i1 d1 : Image) (e : ImgError)
    (h0 : openImage fs (files.getD 0 ("")) = .ok i0)
    (h1 : openImage fs (files.getD 1 ("")) = .ok i1)
    (hp1 : paste 0 0 i0 (createImage (i0.width + i1.width) i0.height white) = .ok d1)
    (hp2 : paste i0.width 0 i1 d1 = .error e) :
    combineTwo fs files out = (fs, .error e) := by
  simp only [combineTwo, h0, h1, hp1, hp2]

theorem combineTwo_err_write (fs : FS) (files : List String) (out : String)
    (i0 i1 d1 d2 : Image)
    (h0 : openImage fs (files.getD 0 ("")) = .ok i0)
    (h1 : openImage fs (files.getD 1 ("")) = .ok i1)
    (hp1 : paste 0 0 i0 (createImage (i0.width + i1.width) i0.height white) = .ok d1)
    (hp2 : paste i0.width 0 i1 d1 = .ok d2)
    (hbad : out ∈ fs.badWrites) :
    combineTwo fs files out = (fs, .error .writeError) := by
  simp only [combineTwo, h0, h1, hp1, hp2, writeFile]
  rw [if_pos hbad]

theorem combineThree_err_first (fs fs1 : FS) (files : List String) (out : String)
    (e : ImgError) (h : combineTwo fs (files.take 2) out = (fs1, .error e)) :
    combineThree fs files out = (fs1, .error e) := by
  simp only [combineThree, h]

theorem combineThree_ok_first (fs fs1 : FS) (files : List String) (out v : String)
    (h : combineTwo fs (files.take 2) out = (fs1, .ok v)) :
    combineThree fs files out = combineTwo fs1 [out, files.getD 2 ("")] out := by
  simp only [combineThree, h]

/-! ### Block-extraction lemmas: in a row-wise concatenation, the first
`w0` columns are image 0 and the remaining columns are image 1. -/

theorem zipWith_append_take (w0 : Nat) :
    ∀ p0 p1 : List (List Pixel), (∀ r ∈ p0, r.length = w0) → p0.length = p1.length →
      (List.zipWith (· ++ ·) p0 p1).map (fun r => r.take w0) = p0 := by
  intro p0
  induction p0 with
  | nil => simp
  | cons r0 rest0 ih =>
    intro p1 h0 hlen
    cases p1 with
    | nil => simp at hlen
    | cons r1 rest1 =>
      simp only [List.zipWith_cons_cons, List.map_cons]
      rw [List.take_left' (h0 r0 (by simp)),
        ih rest1 (fun q hq => h0 q (by simp [hq])) (by simpa using hlen)]

theorem zipWith_append_drop (w0 : Nat) :
    ∀ p0 p1 : List (List Pixel), (∀ r ∈ p0, r.length = w0) → p0.length = p1.length →
      (List.zipWith (· ++ ·) p0 p1).map (fun r => r.drop w0) = p1 := by
  intro p0
  induction p0 with
  | nil => intro p1 _ hlen; cases p1 with
    | nil => simp
    | cons r1 rest1 => simp at hlen
  | cons r0 rest0 ih =>
    intro p1 h0 hlen
    cases p1 with
    | nil => simp at hlen
    | cons r1 rest1 =>
      simp only [List.zipWith_cons_cons, List.map_cons]
      rw [List.drop_left' (h0 r0 (by simp)),
        ih rest1 (fun q hq => h0 q (by simp [hq])) (by simpa using hlen)]

/-! ### Nested two-way concatenation equals direct three-wide concatenation -/

theorem zipWith_threeWide :
    ∀ p0 p1 p2 : List (List Pixel),
      List.zipWith (· ++ ·) (List.zipWith (· ++ ·) p0 p1) p2 = threeWidePixels p0 p1 p2 := by
  intro p0
  induction p0 with
  | nil => intro p1 p2; cases p1 <;> cases p2 <;> simp [threeWidePixels]
  | cons r0 rest0 ih =>
    intro p1 p2
    cases p1 with
    | nil => cases p2 <;> simp [threeWidePixels]
    | cons r1 rest1 =>
      cases p2 with
      | nil => simp [threeWidePixels]
      | cons r2 rest2 =>
        simp only [List.zipWith_cons_cons, threeWidePixels]
        rw [ih rest1 rest2]

theorem hconcat_hconcat (a b c : Image) :
    hconcat (hconcat a b) c = threeWide a b c := by
  simp only [hconcat, threeWide, zipWith_threeWide]

/-! ### Success path of a write resolves with the output path -/

theorem combineTwo_ok_path (fs : FS) (files : List String) (out v : String)
    (h : (combineTwo fs files out).2 = .ok v) : v = out := by
  simp only [combineTwo] at h
  split at h
  · simp at h
  · split at h
    · simp at h
    · split at h
      · simp at h
      · split at h
        · simp at h
        · simp only [writeFile] at h
          split at h
          · simp at h
          · exact (Except.ok.inj h).symm

theorem combineThree_ok_path (fs : FS) (files : List String) (out v : String)
    (h : (combineThree fs files out).2 = .ok v) : v = out := by
  simp only [combineThree] at h
  split at h
  · simp_all
  · exact combineTwo_ok_path _ _ _ _ h

/-! ## Claim theorems -/

/-- Claim C1, counterexample: at the concrete five-card input `[a,b,c,d,e]`
over a filesystem whose flop and turn artifacts hold different pixel data,
`createBoardImage` succeeds, yet the river artifact it produces differs from
the one `combineThree([turn output, cardImages[3], cardImages[4]], river)`
would produce: the code feeds the FLOP artifact, not the turn artifact, into
the three-way combine. -/
theorem C1_counterexample :
    (createBoardImage fsFull [cardA, cardB, cardC, cardD, cardE]).2 =
        some (.ok riverPath) ∧
    (createBoardImage fsFull [cardA, cardB, cardC, cardD, cardE]).1.lookup riverPath ≠
      (combineThree fsFull [turnPath, resourcePath cardD, resourcePath cardE]
          riverPath).1.lookup riverPath := by
  decide

/-- Claim C1, amended: for every input of exactly 5 card identifiers,
`createBoardImage` dispatches to the three-way combine whose first input is
the FLOP artifact path (not the turn artifact), i.e. it computes
`combineThree(['./output/flop.jpeg', cardImages[3], cardImages[4]],
'./output/river.jpeg')`. -/
theorem C1_amended (fs : FS) (c0 c1 c2 c3 c4 : String) :
    createBoardImage fs [c0, c1, c2, c3, c4] =
      ((combineThree fs [flopPath, resourcePath c3, resourcePath c4] riverPath).1,
        some (combineThree fs [flopPath, resourcePath c3, resourcePath c4] riverPath).2) :=
  rfl

/-- Claim C2, counterexample: at the concrete inputs `[]` and `[a]` the
switch matches no case, so `createBoardImage` returns no result at all
(JavaScript `undefined`, here `none`) and leaves the filesystem untouched —
it does NOT yield an `InvalidCardCount` error (no such error value exists in
the code). -/
theorem C2_counterexample :
    createBoardImage emptyFS [] = (emptyFS, none) ∧
    createBoardImage fsFull [cardA] = (fsFull, none) := by
  decide

/-- Claim C2, amended: for every card sequence whose length is not in
{3,4,5}, `createBoardImage` silently does nothing: it matches no switch case,
returns `undefined` (here `none`) rather than an error value, and performs no
filesystem write. -/
theorem C2_amended (fs : FS) (cards : List String)
    (h3 : cards.length ≠ 3) (h4 : cards.length ≠ 4) (h5 : cards.length ≠ 5) :
    createBoardImage fs cards = (fs, none) := by
  simp only [createBoardImage, if_neg h3, if_neg h4, if_neg h5]

/-- Claim C2, witness: the amended theorem applied at a concrete six-card
input. -/
theorem C2_witness :
    createBoardImage fsFull [cardA, cardB, cardC, cardD, cardE, cardA] = (fsFull, none) :=
  C2_amended fsFull [cardA, cardB, cardC, cardD, cardE, cardA]
    (by decide) (by decide) (by decide)

/-- Claim C3: for a pair of existing, wellformed, equal-height input images,
`combineTwo` produces at the output path an image of width the sum of the two
input widths and height the first input's height, whose first `width of image
0` columns are exactly image 0 (paste at (0,0)) and whose remaining columns
are exactly image 1 (paste at (width of image 0, 0)); the canvas is written
to the given output path and nothing else changes. -/
theorem C3_combineTwo_canvas (fs : FS) (f0 f1 out : String) (i0 i1 : Image)
    (h0 : fs.lookup f0 = some i0) (h1 : fs.lookup f1 = some i1)
    (hw0 : i0.wf) (hw1 : i1.wf) (hh : i1.height = i0.height)
    (hbad : out ∉ fs.badWrites) :
    combineTwo fs [f0, f1] out = (fs.write out (hconcat i0 i1), .ok out) ∧
    (hconcat i0 i1).width = i0.width + i1.width ∧
    (hconcat i0 i1).height = i0.height ∧
    (hconcat i0 i1).pixels.map (fun r => r.take i0.width) = i0.pixels ∧
    (hconcat i0 i1).pixels.map (fun r => r.drop i0.width) = i1.pixels := by
  refine ⟨combineTwo_spec fs f0 f1 out i0 i1 h0 h1 hw0 hw1 hh hbad, rfl, rfl, ?_, ?_⟩
  · exact zipWith_append_take i0.width i0.pixels i1.pixels hw0.2 (by rw [hw0.1, hw1.1, hh])
  · exact zipWith_append_drop i0.width i0.pixels i1.pixels hw0.2 (by rw [hw0.1, hw1.1, hh])

/-- Claim C3, witness: the theorem applied to the concrete card assets `a`
(2 pixels wide) and `b` (1 pixel wide). -/
theorem C3_witness :
    combineTwo fsFull [resourcePath cardA, resourcePath cardB] flopPath =
      (fsFull.write flopPath (hconcat imgA imgB), .ok flopPath) ∧
    (hconcat imgA imgB).width = imgA.width + imgB.width ∧
    (hconcat imgA imgB).height = imgA.height ∧
    (hconcat imgA imgB).pixels.map (fun r => r.take imgA.width) = imgA.pixels ∧
    (hconcat imgA imgB).pixels.map (fun r => r.drop imgA.width) = imgB.pixels :=
  C3_combineTwo_canvas fsFull (resourcePath cardA) (resourcePath cardB) flopPath imgA imgB
    (by decide) (by decide) (by decide) (by decide) (by decide) (by decide)

/-- Claim C4: `combineThree` is definitionally the sequential composition the
spec describes (`combineTwo` on files 0-1 into the output path, then
`combineTwo` on [output path, file 2] overwriting the same path), and on
existing, wellformed, equal-height inputs whose third file is distinct from
the output path, its result equals the direct three-wide left-to-right
concatenation of the three images. -/
theorem C4_combineThree_refines :
    (∀ (fs : FS) (files : List String) (out : String),
        combineThree fs files out = combineThreeSpec fs files out) ∧
    (∀ (fs : FS) (f0 f1 f2 out : String) (i0 i1 i2 : Image),
        fs.lookup f0 = some i0 → fs.lookup f1 = some i1 → fs.lookup f2 = some i2 →
        i0.wf → i1.wf → i2.wf →
        i1.height = i0.height → i2.height = i0.height →
        f2 ≠ out → out ∉ fs.badWrites →
        combineThree fs [f0, f1, f2] out =
          (fs.write out (threeWide i0 i1 i2), .ok out)) := by
  constructor
  · intro fs files out
    simp only [combineThree, combineThreeSpec]
    rcases h : combineTwo fs (files.take 2) out with ⟨fs1, r⟩
    cases r <;> simp
  · intro fs f0 f1 f2 out i0 i1 i2 h0 h1 h2 hw0 hw1 hw2 hh1 hh2 hf2 hbad
    rw [combineThree_spec fs f0 f1 f2 out i0 i1 i2 h0 h1 h2 hw0 hw1 hw2 hh1 hh2 hf2 hbad,
      hconcat_hconcat]

/-- Claim C4, witness: the pixel-equality part applied to the concrete card
assets `a`, `b`, `c`. -/
theorem C4_witness :
    combineThree fsFull [resourcePath cardA, resourcePath cardB, resourcePath cardC]
        flopPath =
      (fsFull.write flopPath (threeWide imgA imgB imgC), .ok flopPath) :=
  C4_combineThree_refines.2 fsFull (resourcePath cardA) (resourcePath cardB)
    (resourcePath cardC) flopPath imgA imgB imgC
    (by decide) (by decide) (by decide) (by decide) (by decide) (by decide)
    (by decide) (by decide) (by decide) (by decide)

/-- Claim C5, counterexample: with assets for cards `a` and `b` present but
no asset for card `c`, `createBoardImage [a,b,c]` does fail with
`ImageOpenError`, yet the filesystem DOES gain a board artifact: the first
`combineTwo` of the three-way combine has already written the two-card
composite to the flop path before the missing third asset is opened. -/
theorem C5_counterexample :
    (createBoardImage fsNoC [cardA, cardB, cardC]).2 =
        some (.error (.imageOpenError (resourcePath cardC))) ∧
    fsNoC.lookup flopPath = none ∧
    (createBoardImage fsNoC [cardA, cardB, cardC]).1.lookup flopPath =
      some (hconcat imgA imgB) := by
  decide

/-- Claim C5, amended: a missing asset among the card assets a stage actually
reads makes `composeBoard` fail with `ImageOpenError` carrying the missing
path (at count 3 the assets of cards 0, 1, 2; at counts 4 and 5 only the
assets of cards 3 and 4 are read). Nothing is written unless the missing
asset is the third input of a three-way combine (card 2 at count 3, card 4 at
count 5): then the intermediate two-wide composite has already been written
to the stage's output path when the failure occurs. The six conjuncts cover,
in order: count 3 with asset 0, 1 or 2 missing; count 4 with asset 3 missing;
count 5 with asset 3 missing; count 5 with asset 4 missing. -/
theorem C5_amended :
    (∀ (fs : FS) (c0 c1 c2 : String),
        fs.lookup (resourcePath c0) = none →
        createBoardImage fs [c0, c1, c2] =
          (fs, some (.error (.imageOpenError (resourcePath c0))))) ∧
    (∀ (fs : FS) (c0 c1 c2 : String) (i0 : Image),
        fs.lookup (resourcePath c0) = some i0 →
        fs.lookup (resourcePath c1) = none →
        createBoardImage fs [c0, c1, c2] =
          (fs, some (.error (.imageOpenError (resourcePath c1))))) ∧
    (∀ (fs : FS) (c0 c1 c2 : String) (i0 i1 : Image),
        fs.lookup (resourcePath c0) = some i0 →
        fs.lookup (resourcePath c1) = some i1 →
        fs.lookup (resourcePath c2) = none →
        i0.wf → i1.wf → i1.height = i0.height → flopPath ∉ fs.badWrites →
        createBoardImage fs [c0, c1, c2] =
          (fs.write flopPath (hconcat i0 i1),
            some (.error (.imageOpenError (resourcePath c2))))) ∧
    (∀ (fs : FS) (c0 c1 c2 c3 : String) (iF : Image),
        fs.lookup flopPath = some iF →
        fs.lookup (resourcePath c3) = none →
        createBoardImage fs [c0, c1, c2, c3] =
          (fs, some (.error (.imageOpenError (resourcePath c3))))) ∧
    (∀ (fs : FS) (c0 c1 c2 c3 c4 : String) (iF : Image),
        fs.lookup flopPath = some iF →
        fs.lookup (resourcePath c3) = none →
        createBoardImage fs [c0, c1, c2, c3, c4] =
          (fs, some (.error (.imageOpenError (resourcePath c3))))) ∧
    (∀ (fs : FS) (c0 c1 c2 c3 c4 : String) (iF i3 : Image),
        fs.lookup flopPath = some iF →
        fs.lookup (resourcePath c3) = some i3 →
        fs.lookup (resourcePath c4) = none →
        iF.wf → i3.wf → i3.height = iF.height → riverPath ∉ fs.badWrites →
        createBoardImage fs [c0, c1, c2, c3, c4] =
          (fs.write riverPath (hconcat iF i3),
            some (.error (.imageOpenError (resourcePath c4))))) := by
  refine ⟨?_, ?_, ?_, ?_, ?_, ?_⟩
  · intro fs c0 c1 c2 h
    have e0 : openImage fs (resourcePath c0) = .error (.imageOpenError (resourcePath c0)) := by
      simp [openImage, h]
    have hred : createBoardImage fs [c0, c1, c2] =
        ((combineThree fs [resourcePath c0, resourcePath c1, resourcePath c2] flopPath).1,
          some (combineThree fs [resourcePath c0, resourcePath c1, resourcePath c2]
            flopPath).2) := rfl
    rw [hred, combineThree_err_first fs fs
      [resourcePath c0, resourcePath c1, resourcePath c2] flopPath
      (.imageOpenError (resourcePath c0))
      (combineTwo_err_open0 fs
        ([resourcePath c0, resourcePath c1, resourcePath c2].take 2) flopPath
        (.imageOpenError (resourcePath c0)) e0)]
  · intro fs c0 c1 c2 i0 h0 h1
    have e0 : openImage fs (resourcePath c0) = .ok i0 := by
      simp [openImage, h0]
    have e1 : openImage fs (resourcePath c1) = .error (.imageOpenError (resourcePath c1)) := by
      simp [openImage, h1]
    have hred : createBoardImage fs [c0, c1, c2] =
        ((combineThree fs [resourcePath c0, resourcePath c1, resourcePath c2] flopPath).1,
          some (combineThree fs [resourcePath c0, resourcePath c1, resourcePath c2]
            flopPath).2) := rfl
    rw [hred, combineThree_err_first fs fs
      [resourcePath c0, resourcePath c1, resourcePath c2] flopPath
      (.imageOpenError (resourcePath c1))
      (combineTwo_err_open1 fs
        ([resourcePath c0, resourcePath c1, resourcePath c2].take 2) flopPath i0
        (.imageOpenError (resourcePath c1)) e0 e1)]
  · intro fs c0 c1 c2 i0 i1 h0 h1 h2 hw0 hw1 hh hbad
    have hs1 := combineTwo_spec fs (resourcePath c0) (resourcePath c1) flopPath i0 i1
      h0 h1 hw0 hw1 hh hbad
    have eflop : openImage (fs.write flopPath (hconcat i0 i1)) flopPath =
        .ok (hconcat i0 i1) := by
      simp [openImage, FS.lookup_write_self]
    have e2 : openImage (fs.write flopPath (hconcat i0 i1)) (resourcePath c2) =
        .error (.imageOpenError (resourcePath c2)) := by
      rw [openImage.eq_def,
        FS.lookup_write_ne fs flopPath (resourcePath c2) (hconcat i0 i1)
          (resourcePath_ne_flopPath c2), h2]
    have hred : createBoardImage fs [c0, c1, c2] =
        ((combineThree fs [resourcePath c0, resourcePath c1, resourcePath c2] flopPath).1,
          some (combineThree fs [resourcePath c0, resourcePath c1, resourcePath c2]
            flopPath).2) := rfl
    rw [hred, combineThree_ok_first fs (fs.write flopPath (hconcat i0 i1))
      [resourcePath c0, resourcePath c1, resourcePath c2] flopPath flopPath hs1]
    rw [combineTwo_err_open1 (fs.write flopPath (hconcat i0 i1))
      [flopPath, [resourcePath c0, resourcePath c1, resourcePath c2].getD 2 ("")]
      flopPath (hconcat i0 i1) (.imageOpenError (resourcePath c2)) eflop e2]
  · intro fs c0 c1 c2 c3 iF hF h3
    have e0 : openImage fs flopPath = .ok iF := by
      simp [openImage, hF]
    have e1 : openImage fs (resourcePath c3) = .error (.imageOpenError (resourcePath c3)) := by
      simp [openImage, h3]
    have hred : createBoardImage fs [c0, c1, c2, c3] =
        ((combineTwo fs [flopPath, resourcePath c3] turnPath).1,
          some (combineTwo fs [flopPath, resourcePath c3] turnPath).2) := rfl
    rw [hred, combineTwo_err_open1 fs [flopPath, resourcePath c3] turnPath iF
      (.imageOpenError (resourcePath c3)) e0 e1]
  · intro fs c0 c1 c2 c3 c4 iF hF h3
    have e0 : openImage fs flopPath = .ok iF := by
      simp [openImage, hF]
    have e1 : openImage fs (resourcePath c3) = .error (.imageOpenError (resourcePath c3)) := by
      simp [openImage, h3]
    have hred : createBoardImage fs [c0, c1, c2, c3, c4] =
        ((combineThree fs [flopPath, resourcePath c3, resourcePath c4] riverPath).1,
          some (combineThree fs [flopPath, resourcePath c3, resourcePath c4]
            riverPath).2) := rfl
    rw [hred, combineThree_err_first fs fs
      [flopPath, resourcePath c3, resourcePath c4] riverPath
      (.imageOpenError (resourcePath c3))
      (combineTwo_err_open1 fs
        ([flopPath, resourcePath c3, resourcePath c4].take 2) riverPath iF
        (.imageOpenError (resourcePath c3)) e0 e1)]
  · intro fs c0 c1 c2 c3 c4 iF i3 hF h3 h4 hwF hw3 hh hbad
    have hs1 := combineTwo_spec fs flopPath (resourcePath c3) riverPath iF i3
      hF h3 hwF hw3 hh hbad
    have eriver : openImage (fs.write riverPath (hconcat iF i3)) riverPath =
        .ok (hconcat iF i3) := by
      simp [openImage, FS.lookup_write_self]
    have e4 : openImage (fs.write riverPath (hconcat iF i3)) (resourcePath c4) =
        .error (.imageOpenError (resourcePath c4)) := by
      rw [openImage.eq_def,
        FS.lookup_write_ne fs riverPath (resourcePath c4) (hconcat iF i3)
          (resourcePath_ne_riverPath c4), h4]
    have hred : createBoardImage fs [c0, c1, c2, c3, c4] =
        ((combineThree fs [flopPath, resourcePath c3, resourcePath c4] riverPath).1,
          some (combineThree fs [flopPath, resourcePath c3, resourcePath c4]
            riverPath).2) := rfl
    rw [hred, combineThree_ok_first fs (fs.write riverPath (hconcat iF i3))
      [flopPath, resourcePath c3, resourcePath c4] riverPath riverPath hs1]
    rw [combineTwo_err_open1 (fs.write riverPath (hconcat iF i3))
      [riverPath, [flopPath, resourcePath c3, resourcePath c4].getD 2 ("")]
      riverPath (hconcat iF i3) (.imageOpenError (resourcePath c4)) eriver e4]

/-- Claim C5, witness for the amended theorem: the first-asset-missing part
applied at a concrete input (`c` has no asset, so nothing is written). -/
theorem C5_witness :
    createBoardImage fsNoC [cardC, cardA, cardB] =
      (fsNoC, some (.error (.imageOpenError (resourcePath cardC)))) :=
  C5_amended.1 fsNoC cardC cardA cardB (by decide)

/-- Claim C6: for every valid card count (3, 4, or 5) with all source assets
present, wellformed and of equal height, `createBoardImage` succeeds and
produces exactly one output file at the fixed stage path (flop, turn or river
respectively), whose width is the sum of its constituent image widths and
whose height is the common input height; every other path is unchanged. -/
theorem C6_board_output :
    (∀ (fs : FS) (c0 c1 c2 : String) (i0 i1 i2 : Image),
        fs.lookup (resourcePath c0) = some i0 →
        fs.lookup (resourcePath c1) = some i1 →
        fs.lookup (resourcePath c2) = some i2 →
        i0.wf → i1.wf → i2.wf → i1.height = i0.height → i2.height = i0.height →
        flopPath ∉ fs.badWrites →
        ∃ img : Image,
          createBoardImage fs [c0, c1, c2] =
            (fs.write flopPath img, some (.ok flopPath)) ∧
          img.width = i0.width + i1.width + i2.width ∧
          img.height = i0.height ∧
          (fs.write flopPath img).lookup flopPath = some img ∧
          ∀ q, q ≠ flopPath → (fs.write flopPath img).lookup q = fs.lookup q) ∧
    (∀ (fs : FS) (c0 c1 c2 c3 : String) (iF i3 : Image),
        fs.lookup flopPath = some iF →
        fs.lookup (resourcePath c3) = some i3 →
        iF.wf → i3.wf → i3.height = iF.height →
        turnPath ∉ fs.badWrites →
        ∃ img : Image,
          createBoardImage fs [c0, c1, c2, c3] =
            (fs.write turnPath img, some (.ok turnPath)) ∧
          img.width = iF.width + i3.width ∧
          img.height = iF.height ∧
          (fs.write turnPath img).lookup turnPath = some img ∧
          ∀ q, q ≠ turnPath → (fs.write turnPath img).lookup q = fs.lookup q) ∧
    (∀ (fs : FS) (c0 c1 c2 c3 c4 : String) (iF i3 i4 : Image),
        fs.lookup flopPath = some iF →
        fs.lookup (resourcePath c3) = some i3 →
        fs.lookup (resourcePath c4) = some i4 →
        iF.wf → i3.wf → i4.wf → i3.height = iF.height → i4.height = iF.height →
        riverPath ∉ fs.badWrites →
        ∃ img : Image,
          createBoardImage fs [c0, c1, c2, c3, c4] =
            (fs.write riverPath img, some (.ok riverPath)) ∧
          img.width = iF.width + i3.width + i4.width ∧
          img.height = iF.height ∧
          (fs.write riverPath img).lookup riverPath = some img ∧
          ∀ q, q ≠ riverPath → (fs.write riverPath img).lookup q = fs.lookup q) := by
  refine ⟨?_, ?_, ?_⟩
  · intro fs c0 c1 c2 i0 i1 i2 h0 h1 h2 hw0 hw1 hw2 hh1 hh2 hbad
    refine ⟨hconcat (hconcat i0 i1) i2,
      board3_spec fs c0 c1 c2 i0 i1 i2 h0 h1 h2 hw0 hw1 hw2 hh1 hh2 hbad, rfl, rfl,
      FS.lookup_write_self fs flopPath _, ?_⟩
    intro q hq
    exact FS.lookup_write_ne fs flopPath q _ hq
  · intro fs c0 c1 c2 c3 iF i3 hF h3 hwF hw3 hh hbad
    refine ⟨hconcat iF i3,
      board4_spec fs c0 c1 c2 c3 iF i3 hF h3 hwF hw3 hh hbad, rfl, rfl,
      FS.lookup_write_self fs turnPath _, ?_⟩
    intro q hq
    exact FS.lookup_write_ne fs turnPath q _ hq
  · intro fs c0 c1 c2 c3 c4 iF i3 i4 hF h3 h4 hwF hw3 hw4 hh3 hh4 hbad
    refine ⟨hconcat (hconcat iF i3) i4,
      board5_spec fs c0 c1 c2 c3 c4 iF i3 i4 hF h3 h4 hwF hw3 hw4 hh3 hh4 hbad, rfl, rfl,
      FS.lookup_write_self fs riverPath _, ?_⟩
    intro q hq
    exact FS.lookup_write_ne fs riverPath q _ hq

/-- Claim C6, witness: the turn-stage part applied over the concrete
filesystem holding a flop artifact and all card assets. -/
theorem C6_witness :
    ∃ img : Image,
      createBoardImage fsFull [cardA, cardB, cardC, cardD] =
        (fsFull.write turnPath img, some (.ok turnPath)) ∧
      img.width = imgFlop.width + imgD.width ∧
      img.height = imgFlop.height ∧
      (fsFull.write turnPath img).lookup turnPath = some img ∧
      ∀ q, q ≠ turnPath → (fsFull.write turnPath img).lookup q = fsFull.lookup q :=
  C6_board_output.2.1 fsFull cardA cardB cardC cardD imgFlop imgD
    (by decide) (by decide) (by decide) (by decide) (by decide) (by decide)

/-- Claim C7: every step of the pipeline fails fast. Each promisified
operation is a total function into `Except`, so it resolves or rejects
exactly once (first conjunct); if the first open, the second open, a paste or
the final write fails, `combineTwo` returns exactly that first error and
leaves the filesystem untouched, running no later step; and if the first
stage of `combineThree` fails, its error is the overall result and the second
stage never runs. -/
theorem C7_fail_fast :
    (∀ (fs : FS) (p : String),
        (∃ i, openImage fs p = .ok i) ∨ (∃ e, openImage fs p = .error e)) ∧
    (∀ (fs : FS) (files : List String) (out : String) (e : ImgError),
        openImage fs (files.getD 0 ("")) = .error e →
        combineTwo fs files out = (fs, .error e)) ∧
    (∀ (fs : FS) (files : List String) (out : String) (i0 : Image) (e : ImgError),
        openImage fs (files.getD 0 ("")) = .ok i0 →
        openImage fs (files.getD 1 ("")) = .error e →
        combineTwo fs files out = (fs, .error e)) ∧
    (∀ (fs : FS) (files : List String) (out : String) (i0 i1 d1 : Image) (e : ImgError),
        openImage fs (files.getD 0 ("")) = .ok i0 →
        openImage fs (files.getD 1 ("")) = .ok i1 →
        paste 0 0 i0 (createImage (i0.width + i1.width) i0.height white) = .ok d1 →
        paste i0.width 0 i1 d1 = .error e →
        combineTwo fs files out = (fs, .error e)) ∧
    (∀ (fs : FS) (files : List String) (out : String) (i0 i1 d1 d2 : Image),
        openImage fs (files.getD 0 ("")) = .ok i0 →
        openImage fs (files.getD 1 ("")) = .ok i1 →
        paste 0 0 i0 (createImage (i0.width + i1.width) i0.height white) = .ok d1 →
        paste i0.width 0 i1 d1 = .ok d2 →
        out ∈ fs.badWrites →
        combineTwo fs files out = (fs, .error .writeError)) ∧
    (∀ (fs fs1 : FS) (files : List String) (out : String) (e : ImgError),
        combineTwo fs (files.take 2) out = (fs1, .error e) →
        combineThree fs files out = (fs1, .error e)) := by
  refine ⟨?_, combineTwo_err_open0, combineTwo_err_open1, combineTwo_err_paste,
    combineTwo_err_write, combineThree_err_first⟩
  intro fs p
  cases h : openImage fs p with
  | ok i => exact Or.inl ⟨i, rfl⟩
  | error e => exact Or.inr ⟨e, rfl⟩

/-- Claim C7, witness: the first-open-fails part applied at a concrete
missing asset; the pipeline rejects with exactly that open error and the
filesystem is unchanged. -/
theorem C7_witness :
    combineTwo fsNoC [resourcePath cardC, resourcePath cardA] flopPath =
      (fsNoC, .error (.imageOpenError (resourcePath cardC))) :=
  C7_fail_fast.2.1 fsNoC [resourcePath cardC, resourcePath cardA] flopPath
    (.imageOpenError (resourcePath cardC)) (by decide)

/-- Claim C8: with fixed card identifiers and fixed source assets (and, for
counts 4 and 5, a fixed prior-stage artifact), running `createBoardImage` a
second time from the filesystem the first run produced returns the identical
result and the identical filesystem: re-running is deterministic and
idempotent, byte-identical output at the same path both times. -/
theorem C8_idempotent :
    (∀ (fs : FS) (c0 c1 c2 : String) (i0 i1 i2 : Image),
        fs.lookup (resourcePath c0) = some i0 →
        fs.lookup (resourcePath c1) = some i1 →
        fs.lookup (resourcePath c2) = some i2 →
        i0.wf → i1.wf → i2.wf → i1.height = i0.height → i2.height = i0.height →
        flopPath ∉ fs.badWrites →
        createBoardImage (createBoardImage fs [c0, c1, c2]).1 [c0, c1, c2] =
          createBoardImage fs [c0, c1, c2]) ∧
    (∀ (fs : FS) (c0 c1 c2 c3 : String) (iF i3 : Image),
        fs.lookup flopPath = some iF →
        fs.lookup (resourcePath c3) = some i3 →
        iF.wf → i3.wf → i3.height = iF.height →
        turnPath ∉ fs.badWrites →
        createBoardImage (createBoardImage fs [c0, c1, c2, c3]).1 [c0, c1, c2, c3] =
          createBoardImage fs [c0, c1, c2, c3]) ∧
    (∀ (fs : FS) (c0 c1 c2 c3 c4 : String) (iF i3 i4 : Image),
        fs.lookup flopPath = some iF →
        fs.lookup (resourcePath c3) = some i3 →
        fs.lookup (resourcePath c4) = some i4 →
        iF.wf → i3.wf → i4.wf → i3.height = iF.height → i4.height = iF.height →
        riverPath ∉ fs.badWrites →
        createBoardImage (createBoardImage fs [c0, c1, c2, c3, c4]).1 [c0, c1, c2, c3, c4] =
          createBoardImage fs [c0, c1, c2, c3, c4]) := by
  refine ⟨?_, ?_, ?_⟩
  · intro fs c0 c1 c2 i0 i1 i2 h0 h1 h2 hw0 hw1 hw2 hh1 hh2 hbad
    have run1 := board3_spec fs c0 c1 c2 i0 i1 i2 h0 h1 h2 hw0 hw1 hw2 hh1 hh2 hbad
    have run2 := board3_spec (fs.write flopPath (hconcat (hconcat i0 i1) i2)) c0 c1 c2
      i0 i1 i2
      (by rw [FS.lookup_write_ne fs flopPath _ _ (resourcePath_ne_flopPath c0)]; exact h0)
      (by rw [FS.lookup_write_ne fs flopPath _ _ (resourcePath_ne_flopPath c1)]; exact h1)
      (by rw [FS.lookup_write_ne fs flopPath _ _ (resourcePath_ne_flopPath c2)]; exact h2)
      hw0 hw1 hw2 hh1 hh2
      (by rw [FS.write_badWrites]; exact hbad)
    rw [run1]
    simp only
    rw [run2, FS.write_write]
  · intro fs c0 c1 c2 c3 iF i3 hF h3 hwF hw3 hh hbad
    have run1 := board4_spec fs c0 c1 c2 c3 iF i3 hF h3 hwF hw3 hh hbad
    have run2 := board4_spec (fs.write turnPath (hconcat iF i3)) c0 c1 c2 c3 iF i3
      (by rw [FS.lookup_write_ne fs turnPath _ _ (by decide)]; exact hF)
      (by rw [FS.lookup_write_ne fs turnPath _ _ (resourcePath_ne_turnPath c3)]; exact h3)
      hwF hw3 hh
      (by rw [FS.write_badWrites]; exact hbad)
    rw [run1]
    simp only
    rw [run2, FS.write_write]
  · intro fs c0 c1 c2 c3 c4 iF i3 i4 hF h3 h4 hwF hw3 hw4 hh3 hh4 hbad
    have run1 := board5_spec fs c0 c1 c2 c3 c4 iF i3 i4 hF h3 h4 hwF hw3 hw4 hh3 hh4 hbad
    have run2 := board5_spec (fs.write riverPath (hconcat (hconcat iF i3) i4))
      c0 c1 c2 c3 c4 iF i3 i4
      (by rw [FS.lookup_write_ne fs riverPath _ _ (by decide)]; exact hF)
      (by rw [FS.lookup_write_ne fs riverPath _ _ (resourcePath_ne_riverPath c3)]; exact h3)
      (by rw [FS.lookup_write_ne fs riverPath _ _ (resourcePath_ne_riverPath c4)]; exact h4)
      hwF hw3 hw4 hh3 hh4
      (by rw [FS.write_badWrites]; exact hbad)
    rw [run1]
    simp only
    rw [run2, FS.write_write]

/-- Claim C8, witness: the flop case applied over the concrete filesystem;
re-running the three-card composition reproduces the identical state and
result. -/
theorem C8_witness :
    createBoardImage (createBoardImage fsFull [cardA, cardB, cardC]).1
        [cardA, cardB, cardC] =
      createBoardImage fsFull [cardA, cardB, cardC] :=
  C8_idempotent.1 fsFull cardA cardB cardC imgA imgB imgC
    (by decide) (by decide) (by decide) (by decide) (by decide) (by decide)
    (by decide) (by decide) (by decide)

/-- Claim C9: the result of `createBoardImage` on a four-card (resp.
five-card) input does not depend on the identifiers at indices 0, 1, 2: only
the card count and the trailing identifier(s) are ever read, so two calls of
the same length agreeing on the trailing card(s) over the same filesystem
produce identical results. -/
theorem C9_prefix_independent :
    (∀ (fs : FS) (a0 a1 a2 b0 b1 b2 c3 : String),
        createBoardImage fs [a0, a1, a2, c3] = createBoardImage fs [b0, b1, b2, c3]) ∧
    (∀ (fs : FS) (a0 a1 a2 b0 b1 b2 c3 c4 : String),
        createBoardImage fs [a0, a1, a2, c3, c4] =
          createBoardImage fs [b0, b1, b2, c3, c4]) :=
  ⟨fun _ _ _ _ _ _ _ _ => rfl, fun _ _ _ _ _ _ _ _ _ => rfl⟩

/-- Claim C10: whenever `combineTwo` or `combineThree` succeeds, the resolved
value of the returned promise is exactly the output path string that was
written. -/
theorem C10_resolves_output_path :
    (∀ (fs : FS) (files : List String) (out v : String),
        (combineTwo fs files out).2 = .ok v → v = out) ∧
    (∀ (fs : FS) (files : List String) (out v : String),
        (combineThree fs files out).2 = .ok v → v = out) :=
  ⟨combineTwo_ok_path, combineThree_ok_path⟩

/-- Claim C10, witness: a concrete successful `combineTwo` resolves with the
flop path it wrote. -/
theorem C10_witness :
    (combineTwo fsFull [resourcePath cardA, resourcePath cardB] flopPath).2 =
        .ok flopPath ∧
    flopPath = flopPath :=
  ⟨by decide,
    C10_resolves_output_path.1 fsFull [resourcePath cardA, resourcePath cardB]
      flopPath flopPath (by decide)⟩

end PokerBoard
